import Mathlib

/-
Verification of the English-to-Roman-Urdu translator (src/main2.py).

The program is a thin orchestration wrapper around a pretrained
sequence-to-sequence model: it loads a tokenizer and model once, and on
each button activation tokenizes the input, runs beam-search generation,
decodes the result and renders it.  The external library (tokenizer,
generation model, decoding) is modelled abstractly as a record `Lib` of
pure functions that may fail (`Except String`); Python exceptions are
`Except.error`, and `None` is `Option.none`.  Every user-visible effect
(library call, error banner, rendered output, warning, success banner)
is recorded in an event trace, so that "performs these steps in order",
"shows a warning", "never reaches generation" are statements about the
trace.  Mutable objects are embedded by explicit state passing: a method
that in Python could mutate `self` returns the updated object.
-/

namespace EnglishToRomanUrdu

/-- Token ids of the model vocabulary. -/
abbrev Token := Nat

/-- Result of calling the tokenizer on a text: `encoded["input_ids"]` and
`encoded["attention_mask"]` of src/main2.py line 29 (batch of one). -/
structure Encoded where
  input_ids : List Token
  attention_mask : List Nat
deriving DecidableEq

/-- The keyword arguments of `model.generate` in src/main2.py lines 32-40
(other than the input ids and attention mask). -/
structure GenParams where
  max_length : Nat
  num_beams : Nat
  length_penalty : ℚ
  early_stopping : Bool
  forced_bos_token_id : Token
deriving DecidableEq

/-- The tokenizer object: only its mutable language-tag configuration is
state; its behaviour lives in `Lib`. -/
structure TokenizerObj where
  src_lang : String
  tgt_lang : String
deriving DecidableEq

/-- The loaded generation model, an opaque handle. -/
structure ModelObj where
  weights_id : Nat
deriving DecidableEq

/-- The external `transformers` library, abstracted: each operation the
program calls, as a pure function that may raise (`Except.error`).
A fixed `Lib` value is a fixed model state / model version. -/
structure Lib where
  mbart_tokenizer_from_pretrained : String → Except String TokenizerObj
  mbart_model_from_pretrained : String → Except String ModelObj
  encode : TokenizerObj → String → Bool → Bool → Nat → Except String Encoded
  generate : ModelObj → List Token → List Nat → GenParams → Except String (List (List Token))
  batch_decode : TokenizerObj → List (List Token) → Bool → Except String (List String)
  lang_code_to_id : TokenizerObj → String → Token

/-- Observable events of one script run: library calls with the exact
arguments the program passes, and Streamlit UI effects. -/
inductive Event where
  | loadCall (model_name : String)
  | stError (msg : String)
  | tokenizeCall (text : String) (padding : Bool) (truncation : Bool) (max_length : Nat)
  | generateCall (input_ids : List Token) (attention_mask : List Nat) (params : GenParams)
  | decodeCall (sequences : List (List Token)) (skip_special_tokens : Bool)
  | spinnerShown (msg : String)
  | outputMarkdown (html : String)
  | successShown (msg : String)
  | warningShown (msg : String)
deriving DecidableEq

/-- The `EnglishToRomanUrduTranslator` object after `__init__` completed
(src/main2.py lines 7-11). -/
structure Translator where
  model_name : String
  device : String
  tokenizer : TokenizerObj
  model : ModelObj
deriving DecidableEq

/-- `EnglishToRomanUrduTranslator.load_model` (src/main2.py lines 13-23):
fetch tokenizer and model, set `src_lang`/`tgt_lang`; on any exception show
`st.error` and re-raise (the `Except.error` result). -/
def load_model (lib : Lib) (model_name : String) :
    Except String (TokenizerObj × ModelObj) × List Event :=
  match lib.mbart_tokenizer_from_pretrained model_name with
  | .error e => (.error e, [.loadCall model_name, .stError ("Error loading model: " ++ e)])
  | .ok tokenizer =>
    match lib.mbart_model_from_pretrained model_name with
    | .error e => (.error e, [.loadCall model_name, .stError ("Error loading model: " ++ e)])
    | .ok model =>
      (.ok ({ tokenizer with src_lang := "en_XX", tgt_lang := "ur_PK" }, model),
        [.loadCall model_name])

/-- `EnglishToRomanUrduTranslator.__init__` (src/main2.py lines 8-11):
fix the model name and device, then call `load_model`; a load failure
propagates out of the constructor. -/
def translatorInit (lib : Lib) : Except String Translator × List Event :=
  match load_model lib "facebook/mbart-large-50-many-to-many-mmt" with
  | (.error e, ev) => (.error e, ev)
  | (.ok (tokenizer, model), ev) =>
    (.ok { model_name := "facebook/mbart-large-50-many-to-many-mmt", device := "cpu",
           tokenizer := tokenizer, model := model }, ev)

/-- The keyword arguments passed to `model.generate` in src/main2.py
lines 35-39: `max_length`, `num_beams=4`, `length_penalty=1.0`,
`early_stopping=True`, `forced_bos_token_id=... lang_code_to_id["ur_PK"]`. -/
def genParamsOf (lib : Lib) (tokenizer : TokenizerObj) (max_length : Nat) : GenParams :=
  { max_length := max_length, num_beams := 4, length_penalty := 1,
    early_stopping := true,
    forced_bos_token_id := lib.lang_code_to_id tokenizer "ur_PK" }

/-- `EnglishToRomanUrduTranslator.translate` (src/main2.py lines 25-48):
tokenize with `padding=True, truncation=True, max_length`; generate with
the beam-search arguments; `batch_decode` with `skip_special_tokens=True`;
take element `[0]`; any exception is caught, an `st.error` banner is shown
and `None` is returned.  Returns (result, event trace, `self` after the
call). -/
def translate (lib : Lib) (self : Translator) (text : String) (max_length : Nat) :
    Option String × List Event × Translator :=
  let tokEv := Event.tokenizeCall text true true max_length
  match lib.encode self.tokenizer text true true max_length with
  | .error e => (none, [tokEv, .stError ("Translation error: " ++ e)], self)
  | .ok encoded =>
    let params := genParamsOf lib self.tokenizer max_length
    let genEv := Event.generateCall encoded.input_ids encoded.attention_mask params
    match lib.generate self.model encoded.input_ids encoded.attention_mask params with
    | .error e => (none, [tokEv, genEv, .stError ("Translation error: " ++ e)], self)
    | .ok generated_tokens =>
      let decEv := Event.decodeCall generated_tokens true
      match lib.batch_decode self.tokenizer generated_tokens true with
      | .error e => (none, [tokEv, genEv, decEv, .stError ("Translation error: " ++ e)], self)
      | .ok decoded =>
        match decoded with
        | [] => (none, [tokEv, genEv, decEv,
                  .stError "Translation error: list index out of range"], self)
        | translated_text :: _ => (some translated_text, [tokEv, genEv, decEv], self)

/-- The translate-button branch of `main` (src/main2.py lines 116-128):
`if input_text:` (Python truthiness, i.e. non-empty) run `translate` under
a spinner and, `if translation:` (truthy, i.e. not `None` and non-empty),
render the styled box and the success banner; otherwise
(`else` of `if input_text`) show the warning. -/
def translateButtonHandler (lib : Lib) (translator : Translator) (input_text : String)
    (max_length : Nat) : List Event :=
  if input_text ≠ "" then
    let r := translate lib translator input_text max_length
    Event.spinnerShown "Translating..." :: r.2.1 ++
      (match r.1 with
        | some t =>
          if t ≠ "" then
            [Event.outputMarkdown ("<div class=\"translation-box\">" ++ t ++ "</div>"),
              Event.successShown "Translation completed! ✨"]
          else []
        | none => [])
  else [Event.warningShown "⚠️ Please enter some text to translate"]

/-- The sidebar slider configuration of `main` (src/main2.py lines 90-96). -/
structure SliderConfig where
  label : String
  min_value : Nat
  max_value : Nat
  value : Nat
deriving DecidableEq

/-- The `st.slider` call of src/main2.py lines 90-96: `min_value=50`,
`max_value=250`, `value=128`. -/
def maxLengthSlider : SliderConfig :=
  { label := "Maximum Length", min_value := 50, max_value := 250, value := 128 }

/-- Modelled from the spec: the Streamlit slider widget itself is library
code, not in the repository.  Per the spec's front-end contract ("a sidebar
slider bounded [50, 250] controlling max_length (default 128)") the widget
yields the configured default when untouched and otherwise the user's
position, always confined to the configured [min_value, max_value] range. -/
def sliderValue (cfg : SliderConfig) (user : Option Nat) : Nat :=
  match user with
  | none => cfg.value
  | some v => max cfg.min_value (min cfg.max_value v)

/-- One button activation of `main` with an already-built translator:
the `max_length` handed to `translate` is the slider's value. -/
def mainActivation (lib : Lib) (translator : Translator) (input_text : String)
    (user : Option Nat) : List Event :=
  translateButtonHandler lib translator input_text (sliderValue maxLengthSlider user)

/-- Process-wide state of the Streamlit host: the `@st.cache_resource`
cache backing `get_translator` (src/main2.py lines 81-85). -/
structure ProcState where
  cache : Option Translator
deriving DecidableEq

/-- `get_translator` under `@st.cache_resource` (src/main2.py lines 81-85):
return the cached instance if present; otherwise construct one and cache
it.  When construction raises, nothing is cached and the exception
propagates. -/
def get_translator (lib : Lib) (s : ProcState) :
    (Except String Translator × List Event) × ProcState :=
  match s.cache with
  | some tr => ((.ok tr, []), s)
  | none =>
    match translatorInit lib with
    | (.ok tr, ev) => ((.ok tr, ev), { cache := some tr })
    | (.error e, ev) => ((.error e, ev), s)

/-- One user request: the text-area content and the slider position. -/
structure Request where
  input_text : String
  slider : Option Nat
deriving DecidableEq

/-- One script run of `main` for a request: obtain the translator (a load
failure re-raises, halting the run before any translation), then perform
the button activation. -/
def scriptRun (lib : Lib) (s : ProcState) (req : Request) : ProcState × List Event :=
  match get_translator lib s with
  | ((.error _, ev), s1) => (s1, ev)
  | ((.ok tr, ev), s1) =>
    (s1, ev ++ mainActivation lib tr req.input_text req.slider)

/-- A sequence of script runs in one hosting process, threading the
`cache_resource` state. -/
def runRequests (lib : Lib) (s : ProcState) : List Request → ProcState × List Event
  | [] => (s, [])
  | req :: rest =>
    let p := scriptRun lib s req
    let q := runRequests lib p.1 rest
    (q.1, p.2 ++ q.2)

/-- Recognizer: a model-load event. -/
def isLoadCall : Event → Bool
  | .loadCall _ => true
  | _ => false

/-- Recognizer: a tokenizer call, i.e. evidence `translate` was entered. -/
def isTokenizeCall : Event → Bool
  | .tokenizeCall _ _ _ _ => true
  | _ => false

/-- Recognizer: a `model.generate` call. -/
def isGenerateCall : Event → Bool
  | .generateCall _ _ _ => true
  | _ => false

/-- Recognizer: the warning banner. -/
def isWarning : Event → Bool
  | .warningShown _ => true
  | _ => false

/-- Recognizer: an output-panel update. -/
def isOutputMarkdown : Event → Bool
  | .outputMarkdown _ => true
  | _ => false

/-- Recognizer: the success banner. -/
def isSuccess : Event → Bool
  | .successShown _ => true
  | _ => false

/-- Recognizer: an `st.error` banner. -/
def isStError : Event → Bool
  | .stError _ => true
  | _ => false

/-- Number of model-load executions recorded in a trace. -/
def countLoads (evs : List Event) : Nat := (evs.filter isLoadCall).length

/-- `true` unless the event is a tokenize or generate call whose
`max_length` lies outside `[lo, hi]`. -/
def eventMaxLenOk (lo hi : Nat) : Event → Bool
  | .tokenizeCall _ _ _ m => decide (lo ≤ m) && decide (m ≤ hi)
  | .generateCall _ _ p => decide (lo ≤ p.max_length) && decide (p.max_length ≤ hi)
  | _ => true

/-! ### Concrete instantiations used to exercise the theorems -/

/-- A tokenizer object with the language tags the loader sets. -/
def tokEx : TokenizerObj := { src_lang := "en_XX", tgt_lang := "ur_PK" }

/-- A well-behaved concrete library: every call succeeds. -/
def libEx : Lib :=
  { mbart_tokenizer_from_pretrained := fun _ => .ok { src_lang := "en_XX", tgt_lang := "en_XX" },
    mbart_model_from_pretrained := fun _ => .ok { weights_id := 7 },
    encode := fun _ text _ _ _ => .ok { input_ids := [3, text.length], attention_mask := [1, 1] },
    generate := fun _ _ _ p => .ok [[p.forced_bos_token_id, 9, 12]],
    batch_decode := fun _ seqs _ => .ok (seqs.map fun _ => "salaam"),
    lang_code_to_id := fun _ code => code.length }

/-- A library whose decoder yields the empty string for every sequence. -/
def libEmptyDecode : Lib :=
  { libEx with batch_decode := fun _ seqs _ => .ok (seqs.map fun _ => "") }

/-- A library whose tokenizer download raises. -/
def libLoadFail : Lib :=
  { libEx with mbart_tokenizer_from_pretrained := fun _ => .error "network down" }

/-- A library whose tokenization call raises. -/
def libEncodeFail : Lib :=
  { libEx with encode := fun _ _ _ _ _ => .error "bad input" }

/-- The translator object `translatorInit libEx` builds. -/
def trEx : Translator :=
  { model_name := "facebook/mbart-large-50-many-to-many-mmt", device := "cpu",
    tokenizer := tokEx, model := { weights_id := 7 } }

end EnglishToRomanUrdu

namespace EnglishToRomanUrdu

/-! ### Helper lemmas shared between claims -/

/-- `translate` leaves `self` untouched on every path. -/
theorem translate_self_eq (lib : Lib) (tr : Translator) (text : String) (ml : Nat) :
    (translate lib tr text ml).2.2 = tr := by
  unfold translate
  dsimp only
  (repeat' split) <;> rfl

/-- The first event of every `translate` trace is the tokenizer call with
`padding=True, truncation=True` and the given `max_length`. -/
theorem translate_events_head (lib : Lib) (tr : Translator) (text : String) (ml : Nat) :
    (translate lib tr text ml).2.1.head? = some (Event.tokenizeCall text true true ml) := by
  unfold translate
  dsimp only
  (repeat' split) <;> rfl

/-- Classification of every event a `translate` trace can contain. -/
theorem translate_events_shape (lib : Lib) (tr : Translator) (text : String) (ml : Nat) :
    ∀ ev ∈ (translate lib tr text ml).2.1,
      ev = Event.tokenizeCall text true true ml ∨
      (∃ ids mask, ev = Event.generateCall ids mask (genParamsOf lib tr.tokenizer ml)) ∨
      (∃ seqs, ev = Event.decodeCall seqs true) ∨
      (∃ msg, ev = Event.stError msg) := by
  unfold translate
  dsimp only
  (repeat' split) <;>
    · intro ev hev
      fin_cases hev <;>
        first
        | exact Or.inl rfl
        | exact Or.inr (Or.inl ⟨_, _, rfl⟩)
        | exact Or.inr (Or.inr (Or.inl ⟨_, rfl⟩))
        | exact Or.inr (Or.inr (Or.inr ⟨_, rfl⟩))

/-- Complete case analysis of one `translate` call: exactly one of the five
control paths of src/main2.py lines 27-48 is taken, and each determines the
result, the trace and the returned object. -/
theorem translate_cases (lib : Lib) (tr : Translator) (text : String) (ml : Nat) :
    (∃ e, lib.encode tr.tokenizer text true true ml = .error e ∧
      translate lib tr text ml =
        (none, [Event.tokenizeCall text true true ml,
          Event.stError ("Translation error: " ++ e)], tr)) ∨
    (∃ enc e, lib.encode tr.tokenizer text true true ml = .ok enc ∧
      lib.generate tr.model enc.input_ids enc.attention_mask
        (genParamsOf lib tr.tokenizer ml) = .error e ∧
      translate lib tr text ml =
        (none, [Event.tokenizeCall text true true ml,
          Event.generateCall enc.input_ids enc.attention_mask (genParamsOf lib tr.tokenizer ml),
          Event.stError ("Translation error: " ++ e)], tr)) ∨
    (∃ enc toks e, lib.encode tr.tokenizer text true true ml = .ok enc ∧
      lib.generate tr.model enc.input_ids enc.attention_mask
        (genParamsOf lib tr.tokenizer ml) = .ok toks ∧
      lib.batch_decode tr.tokenizer toks true = .error e ∧
      translate lib tr text ml =
        (none, [Event.tokenizeCall text true true ml,
          Event.generateCall enc.input_ids enc.attention_mask (genParamsOf lib tr.tokenizer ml),
          Event.decodeCall toks true, Event.stError ("Translation error: " ++ e)], tr)) ∨
    (∃ enc toks, lib.encode tr.tokenizer text true true ml = .ok enc ∧
      lib.generate tr.model enc.input_ids enc.attention_mask
        (genParamsOf lib tr.tokenizer ml) = .ok toks ∧
      lib.batch_decode tr.tokenizer toks true = .ok [] ∧
      translate lib tr text ml =
        (none, [Event.tokenizeCall text true true ml,
          Event.generateCall enc.input_ids enc.attention_mask (genParamsOf lib tr.tokenizer ml),
          Event.decodeCall toks true,
          Event.stError "Translation error: list index out of range"], tr)) ∨
    (∃ enc toks t rest, lib.encode tr.tokenizer text true true ml = .ok enc ∧
      lib.generate tr.model enc.input_ids enc.attention_mask
        (genParamsOf lib tr.tokenizer ml) = .ok toks ∧
      lib.batch_decode tr.tokenizer toks true = .ok (t :: rest) ∧
      translate lib tr text ml =
        (some t, [Event.tokenizeCall text true true ml,
          Event.generateCall enc.input_ids enc.attention_mask (genParamsOf lib tr.tokenizer ml),
          Event.decodeCall toks true], tr)) := by
  unfold translate
  dsimp only
  rcases h1 : lib.encode tr.tokenizer text true true ml with e | enc <;> dsimp only
  · exact Or.inl ⟨e, rfl, rfl⟩
  · rcases h2 : lib.generate tr.model enc.input_ids enc.attention_mask
        (genParamsOf lib tr.tokenizer ml) with e | toks <;> dsimp only
    · exact Or.inr (Or.inl ⟨enc, e, rfl, h2, rfl⟩)
    · rcases h3 : lib.batch_decode tr.tokenizer toks true with e | dec <;> dsimp only
      · exact Or.inr (Or.inr (Or.inl ⟨enc, toks, e, rfl, h2, h3, rfl⟩))
      · rcases dec with _ | ⟨t, rest⟩ <;> dsimp only
        · exact Or.inr (Or.inr (Or.inr (Or.inl ⟨enc, toks, rfl, h2, h3, rfl⟩)))
        · exact Or.inr (Or.inr (Or.inr (Or.inr ⟨enc, toks, t, rest, rfl, h2, h3, rfl⟩)))

/-- `translate` traces contain only library-call and error-banner events:
no output-panel update, no success banner, no warning, no model load. -/
theorem translate_trace_no_ui (lib : Lib) (tr : Translator) (text : String) (ml : Nat) :
    (translate lib tr text ml).2.1.any isOutputMarkdown = false ∧
    (translate lib tr text ml).2.1.any isSuccess = false ∧
    (translate lib tr text ml).2.1.any isWarning = false ∧
    (translate lib tr text ml).2.1.any isLoadCall = false := by
  refine ⟨?_, ?_, ?_, ?_⟩ <;>
    · rw [List.any_eq_false]
      intro ev hev
      rcases translate_events_shape lib tr text ml ev hev with
        h | ⟨ids, mask, h⟩ | ⟨seqs, h⟩ | ⟨msg, h⟩ <;> subst h <;>
        simp [isOutputMarkdown, isSuccess, isWarning, isLoadCall]

/-- Complete case analysis of `__init__`: either some load step raised —
then the banner was shown and the error re-raised — or both fetches
succeeded and the returned object carries the configured language tags. -/
theorem translatorInit_cases (lib : Lib) :
    (∃ e, translatorInit lib =
      (.error e, [Event.loadCall "facebook/mbart-large-50-many-to-many-mmt",
        Event.stError ("Error loading model: " ++ e)])) ∨
    (∃ tok model,
      lib.mbart_tokenizer_from_pretrained "facebook/mbart-large-50-many-to-many-mmt" = .ok tok ∧
      lib.mbart_model_from_pretrained "facebook/mbart-large-50-many-to-many-mmt" = .ok model ∧
      translatorInit lib =
        (.ok { model_name := "facebook/mbart-large-50-many-to-many-mmt", device := "cpu",
               tokenizer := { tok with src_lang := "en_XX", tgt_lang := "ur_PK" },
               model := model },
          [Event.loadCall "facebook/mbart-large-50-many-to-many-mmt"])) := by
  unfold translatorInit load_model
  rcases ht : lib.mbart_tokenizer_from_pretrained "facebook/mbart-large-50-many-to-many-mmt"
      with e | tok <;> dsimp only
  · exact Or.inl ⟨e, rfl⟩
  · rcases hm : lib.mbart_model_from_pretrained "facebook/mbart-large-50-many-to-many-mmt"
        with e | m <;> dsimp only
    · exact Or.inl ⟨e, rfl⟩
    · exact Or.inr ⟨tok, m, rfl, rfl, rfl⟩

/-- `countLoads` distributes over append. -/
theorem countLoads_append (a b : List Event) :
    countLoads (a ++ b) = countLoads a + countLoads b := by
  unfold countLoads
  rw [List.filter_append, List.length_append]

/-- A trace without load events has `countLoads` zero. -/
theorem countLoads_eq_zero (evs : List Event) (h : ∀ ev ∈ evs, isLoadCall ev = false) :
    countLoads evs = 0 := by
  unfold countLoads
  rw [List.length_eq_zero, List.filter_eq_nil_iff]
  intro a ha
  simp [h a ha]

/-- The button handler performs no model load on any path. -/
theorem handler_no_loads (lib : Lib) (tr : Translator) (text : String) (ml : Nat) :
    countLoads (translateButtonHandler lib tr text ml) = 0 := by
  apply countLoads_eq_zero
  intro ev hev
  unfold translateButtonHandler at hev
  by_cases hne : text ≠ ""
  · rw [if_pos hne] at hev
    dsimp only at hev
    rcases List.mem_cons.mp hev with h | h
    · subst h; rfl
    · rcases List.mem_append.mp h with h2 | h2
      · rcases translate_events_shape lib tr text ml ev h2 with
          h3 | ⟨ids, mask, h3⟩ | ⟨seqs, h3⟩ | ⟨msg, h3⟩ <;> subst h3 <;> rfl
      · revert h2
        rcases (translate lib tr text ml).1 with _ | t <;> dsimp only <;> intro h2
        · cases h2
        · split at h2
          · fin_cases h2 <;> rfl
          · cases h2
  · rw [if_neg hne] at hev
    rcases List.mem_cons.mp hev with h | h
    · subst h; rfl
    · cases h

/-- Every tokenize or generate call the button handler issues uses the
`max_length` it was handed; hence all stay within `[lo, hi]` when
`max_length` does. -/
theorem handler_maxlen (lib : Lib) (tr : Translator) (text : String) (ml lo hi : Nat)
    (h1 : lo ≤ ml) (h2 : ml ≤ hi) :
    (translateButtonHandler lib tr text ml).all (eventMaxLenOk lo hi) = true := by
  rw [List.all_eq_true]
  intro ev hev
  unfold translateButtonHandler at hev
  by_cases hne : text ≠ ""
  · rw [if_pos hne] at hev
    dsimp only at hev
    rcases List.mem_cons.mp hev with h | h
    · subst h; rfl
    · rcases List.mem_append.mp h with hm | hm
      · rcases translate_events_shape lib tr text ml ev hm with
          h3 | ⟨ids, mask, h3⟩ | ⟨seqs, h3⟩ | ⟨msg, h3⟩ <;> subst h3 <;>
          simp [eventMaxLenOk, genParamsOf, h1, h2]
      · revert hm
        rcases (translate lib tr text ml).1 with _ | t <;> dsimp only <;> intro hm
        · cases hm
        · split at hm
          · fin_cases hm <;> rfl
          · cases hm
  · rw [if_neg hne] at hev
    rcases List.mem_cons.mp hev with h | h
    · subst h; rfl
    · cases h

/-- When the cache holds a translator, `get_translator` returns it with no
events and no state change. -/
theorem get_translator_cached (lib : Lib) (tr : Translator) :
    get_translator lib { cache := some tr } = ((.ok tr, []), { cache := some tr }) := rfl

/-- A script run from an empty cache with a successful constructor caches
the new translator and proceeds to the button activation. -/
theorem scriptRun_uncached_ok (lib : Lib) (tr0 : Translator) (ev : List Event) (req : Request)
    (hinit : translatorInit lib = (.ok tr0, ev)) :
    scriptRun lib { cache := none } req =
      ({ cache := some tr0 }, ev ++ mainActivation lib tr0 req.input_text req.slider) := by
  unfold scriptRun get_translator
  rw [hinit]

/-- Runs that start with a populated cache never load again. -/
theorem runRequests_cached (lib : Lib) (tr : Translator) (reqs : List Request) :
    countLoads (runRequests lib { cache := some tr } reqs).2 = 0 := by
  induction reqs with
  | nil => rfl
  | cons req rest ih =>
    have hs : scriptRun lib { cache := some tr } req =
        ({ cache := some tr }, mainActivation lib tr req.input_text req.slider) := rfl
    unfold runRequests
    rw [hs]
    dsimp only
    rw [countLoads_append, ih]
    unfold mainActivation
    rw [handler_no_loads]

/-! ### The claims -/

/-- C1: for every input text and positive `max_length`, a successful
`translate` performed exactly, and in this order: one tokenizer call with
padding and truncation to `max_length`; one `generate` call with beam width
4, length penalty 1.0, early stopping, and the first generated token forced
to the Urdu language marker; one decode call stripping special tokens — and
it returned the first decoded candidate. -/
theorem c1_translate_pipeline (lib : Lib) (tr : Translator) (text : String) (ml : Nat)
    (s : String) (hml : 0 < ml) (h : (translate lib tr text ml).1 = some s) :
    ∃ enc toks decoded,
      lib.encode tr.tokenizer text true true ml = .ok enc ∧
      lib.generate tr.model enc.input_ids enc.attention_mask
        { max_length := ml, num_beams := 4, length_penalty := 1, early_stopping := true,
          forced_bos_token_id := lib.lang_code_to_id tr.tokenizer "ur_PK" } = .ok toks ∧
      lib.batch_decode tr.tokenizer toks true = .ok decoded ∧
      decoded.head? = some s ∧
      (translate lib tr text ml).2.1 =
        [Event.tokenizeCall text true true ml,
          Event.generateCall enc.input_ids enc.attention_mask (genParamsOf lib tr.tokenizer ml),
          Event.decodeCall toks true] := by
  rcases translate_cases lib tr text ml with
    ⟨e, h1, ht⟩ | ⟨enc, e, h1, h2, ht⟩ | ⟨enc, toks, e, h1, h2, h3, ht⟩ |
    ⟨enc, toks, h1, h2, h3, ht⟩ | ⟨enc, toks, t, rest, h1, h2, h3, ht⟩
  · rw [ht] at h; cases h
  · rw [ht] at h; cases h
  · rw [ht] at h; cases h
  · rw [ht] at h; cases h
  · rw [ht] at h
    obtain rfl : t = s := by simpa using h
    exact ⟨enc, toks, t :: rest, h1, h2, h3, rfl, by rw [ht]⟩

/-- Closed instance of `c1_translate_pipeline` at a concrete library. -/
theorem c1_translate_pipeline_witness :
    0 < 128 ∧ (translate libEx trEx "hello" 128).1 = some "salaam" ∧
      (∃ enc toks decoded,
        libEx.encode trEx.tokenizer "hello" true true 128 = .ok enc ∧
        libEx.generate trEx.model enc.input_ids enc.attention_mask
          { max_length := 128, num_beams := 4, length_penalty := 1, early_stopping := true,
            forced_bos_token_id := libEx.lang_code_to_id trEx.tokenizer "ur_PK" } = .ok toks ∧
        libEx.batch_decode trEx.tokenizer toks true = .ok decoded ∧
        decoded.head? = some "salaam" ∧
        (translate libEx trEx "hello" 128).2.1 =
          [Event.tokenizeCall "hello" true true 128,
            Event.generateCall enc.input_ids enc.attention_mask
              (genParamsOf libEx trEx.tokenizer 128),
            Event.decodeCall toks true]) :=
  ⟨by decide, by decide,
    c1_translate_pipeline libEx trEx "hello" 128 "salaam" (by decide) (by decide)⟩

/-- The three ways a library exception can arise inside the `try` block of
`translate` (src/main2.py lines 27-44): during tokenization, generation or
decoding. -/
def translateRaises (lib : Lib) (tr : Translator) (text : String) (ml : Nat) : Prop :=
  (∃ e, lib.encode tr.tokenizer text true true ml = .error e) ∨
  (∃ enc e, lib.encode tr.tokenizer text true true ml = .ok enc ∧
    lib.generate tr.model enc.input_ids enc.attention_mask
      (genParamsOf lib tr.tokenizer ml) = .error e) ∨
  (∃ enc toks e, lib.encode tr.tokenizer text true true ml = .ok enc ∧
    lib.generate tr.model enc.input_ids enc.attention_mask
      (genParamsOf lib tr.tokenizer ml) = .ok toks ∧
    lib.batch_decode tr.tokenizer toks true = .error e)

/-- C2: whenever an exception is raised during tokenization, generation or
decoding, `translate` returns `None` instead of propagating, an error
banner carrying the message is shown, and the translator object is left
unchanged. -/
theorem c2_exception_caught (lib : Lib) (tr : Translator) (text : String) (ml : Nat)
    (h : translateRaises lib tr text ml) :
    (translate lib tr text ml).1 = none ∧
    (∃ e, Event.stError ("Translation error: " ++ e) ∈ (translate lib tr text ml).2.1) ∧
    (translate lib tr text ml).2.2 = tr := by
  rcases translate_cases lib tr text ml with
    ⟨e, h1, ht⟩ | ⟨enc, e, h1, h2, ht⟩ | ⟨enc, toks, e, h1, h2, h3, ht⟩ |
    ⟨enc, toks, h1, h2, h3, ht⟩ | ⟨enc, toks, t, rest, h1, h2, h3, ht⟩
  · exact ⟨by rw [ht], ⟨e, by rw [ht]; simp⟩, by rw [ht]⟩
  · exact ⟨by rw [ht], ⟨e, by rw [ht]; simp⟩, by rw [ht]⟩
  · exact ⟨by rw [ht], ⟨e, by rw [ht]; simp⟩, by rw [ht]⟩
  · exfalso
    rcases h with ⟨e, he⟩ | ⟨enc', e, he1, he2⟩ | ⟨enc', toks', e, he1, he2, he3⟩
    · rw [h1] at he; cases he
    · rw [h1] at he1
      injection he1 with hq
      subst hq
      rw [h2] at he2; cases he2
    · rw [h1] at he1
      injection he1 with hq
      subst hq
      rw [h2] at he2
      injection he2 with hq2
      subst hq2
      rw [h3] at he3; cases he3
  · exfalso
    rcases h with ⟨e, he⟩ | ⟨enc', e, he1, he2⟩ | ⟨enc', toks', e, he1, he2, he3⟩
    · rw [h1] at he; cases he
    · rw [h1] at he1
      injection he1 with hq
      subst hq
      rw [h2] at he2; cases he2
    · rw [h1] at he1
      injection he1 with hq
      subst hq
      rw [h2] at he2
      injection he2 with hq2
      subst hq2
      rw [h3] at he3; cases he3

/-- Closed instance of `c2_exception_caught`: a tokenizer exception yields
`None`. -/
theorem c2_exception_caught_witness :
    translateRaises libEncodeFail trEx "hello" 128 ∧
      (translate libEncodeFail trEx "hello" 128).1 = none :=
  ⟨Or.inl ⟨"bad input", rfl⟩,
    (c2_exception_caught libEncodeFail trEx "hello" 128 (Or.inl ⟨"bad input", rfl⟩)).1⟩

/-- C3: for a fixed model state (a fixed `Lib` and translator object),
`translate` is deterministic: two calls with identical text and identical
`max_length` produce identical results, traces and final objects.  In the
embedding `translate` is a pure function of these arguments — the source
configures pure beam search (`num_beams=4`, no sampling), so a fixed model
state determines the output. -/
theorem c3_deterministic (lib : Lib) (tr : Translator) (t1 t2 : String) (m1 m2 : Nat)
    (ht : t1 = t2) (hm : m1 = m2) :
    translate lib tr t1 m1 = translate lib tr t2 m2 := by rw [ht, hm]

/-- Closed instance of `c3_deterministic`. -/
theorem c3_deterministic_witness :
    ("hello" : String) = "hello" ∧ (128 : Nat) = 128 ∧
      translate libEx trEx "hello" 128 = translate libEx trEx "hello" 128 :=
  ⟨rfl, rfl, c3_deterministic libEx trEx "hello" "hello" 128 128 rfl rfl⟩

/-- C10: `translate` never mutates the translator object: `model_name`,
`device`, the tokenizer (including its source/target language tags) and the
model are identical before and after the call, on the success path and on
every failure path. -/
theorem c10_translator_frame (lib : Lib) (tr : Translator) (text : String) (ml : Nat) :
    ((translate lib tr text ml).2.2).model_name = tr.model_name ∧
    ((translate lib tr text ml).2.2).device = tr.device ∧
    ((translate lib tr text ml).2.2).tokenizer = tr.tokenizer ∧
    ((translate lib tr text ml).2.2).tokenizer.src_lang = tr.tokenizer.src_lang ∧
    ((translate lib tr text ml).2.2).tokenizer.tgt_lang = tr.tokenizer.tgt_lang ∧
    ((translate lib tr text ml).2.2).model = tr.model := by
  rw [translate_self_eq lib tr text ml]
  exact ⟨rfl, rfl, rfl, rfl, rfl, rfl⟩

/-- C4 is false as stated: for the blank (whitespace-only, non-empty)
input `" "`, the front end invokes `translate` (a tokenizer call occurs)
and shows no warning — `if input_text:` in src/main2.py line 117 tests
Python truthiness, which only rejects the empty string. -/
theorem c4_blank_counterexample :
    (translateButtonHandler libEx trEx " " 128).any isTokenizeCall = true ∧
      (translateButtonHandler libEx trEx " " 128).any isWarning = false := by
  exact ⟨by decide, by decide⟩

/-- C4 (amended): for every activation with EMPTY input text the front end
shows the warning and performs no translation call; blank-but-non-empty
text is not intercepted. -/
theorem c4_empty_input_guard (lib : Lib) (tr : Translator) (ml : Nat) :
    translateButtonHandler lib tr "" ml =
      [Event.warningShown "⚠️ Please enter some text to translate"] ∧
    (translateButtonHandler lib tr "" ml).any isTokenizeCall = false := by
  have h : translateButtonHandler lib tr "" ml =
      [Event.warningShown "⚠️ Please enter some text to translate"] := by
    unfold translateButtonHandler
    simp
  exact ⟨h, by rw [h]; rfl⟩

/-- C5: when model or tokenizer loading raises, the error banner is shown
and the exception is re-raised (the constructor result is the error), and
in every subsequent run of the process no translation step is reached: no
`generate` call and not even a tokenizer call ever occurs. -/
theorem c5_load_failure (lib : Lib) (e : String)
    (h : (translatorInit lib).1 = .error e) (reqs : List Request) :
    Event.stError ("Error loading model: " ++ e) ∈ (translatorInit lib).2 ∧
    (runRequests lib { cache := none } reqs).2.any isGenerateCall = false ∧
    (runRequests lib { cache := none } reqs).2.any isTokenizeCall = false := by
  rcases translatorInit_cases lib with ⟨e', hinit⟩ | ⟨tok, m, h1, h2, hinit⟩
  · rw [hinit] at h
    dsimp only at h
    injection h with h'
    subst h'
    have hscript : ∀ req, scriptRun lib { cache := none } req =
        ({ cache := none },
          [Event.loadCall "facebook/mbart-large-50-many-to-many-mmt",
            Event.stError ("Error loading model: " ++ e')]) := by
      intro req
      unfold scriptRun get_translator
      rw [hinit]
    have hrun : ∀ rs, (runRequests lib { cache := none } rs).2.any isGenerateCall = false ∧
        (runRequests lib { cache := none } rs).2.any isTokenizeCall = false := by
      intro rs
      induction rs with
      | nil => exact ⟨rfl, rfl⟩
      | cons req rest ih =>
        unfold runRequests
        rw [hscript req]
        dsimp only
        rw [List.any_append, List.any_append]
        simp only [ih.1, ih.2, Bool.or_false]
        exact ⟨rfl, rfl⟩
    exact ⟨by rw [hinit]; simp, (hrun reqs).1, (hrun reqs).2⟩
  · rw [hinit] at h
    cases h

/-- Closed instance of `c5_load_failure` at a concrete failing library. -/
theorem c5_load_failure_witness :
    (translatorInit libLoadFail).1 = Except.error "network down" ∧
      (runRequests libLoadFail { cache := none }
        [{ input_text := "hello", slider := none }]).2.any isGenerateCall = false :=
  ⟨rfl, (c5_load_failure libLoadFail "network down" rfl
    [{ input_text := "hello", slider := none }]).2.1⟩

/-- C6 is false as stated: when `translate` succeeds with the empty string
(a possible decode of an all-special-token sequence), `if translation:` in
src/main2.py line 121 is false, so neither the styled output box nor the
success banner appears even though a string was returned. -/
theorem c6_empty_output_counterexample :
    (translate libEmptyDecode trEx "hi" 128).1 = some "" ∧
      (translateButtonHandler libEmptyDecode trEx "hi" 128).any isOutputMarkdown = false ∧
      (translateButtonHandler libEmptyDecode trEx "hi" 128).any isSuccess = false := by
  exact ⟨by decide, by decide, by decide⟩

/-- C6 (amended): on non-empty input the front end invokes `translate`;
whenever `translate` returns a NON-EMPTY string the returned text is
rendered inside the styled container and the success banner is shown; when
it returns `None` — or the empty string — the output panel is not
updated. -/
theorem c6_render_on_success (lib : Lib) (tr : Translator) (text : String) (ml : Nat)
    (hne : text ≠ "") :
    (translateButtonHandler lib tr text ml).any isTokenizeCall = true ∧
    (∀ t, (translate lib tr text ml).1 = some t → t ≠ "" →
      Event.outputMarkdown ("<div class=\"translation-box\">" ++ t ++ "</div>")
          ∈ translateButtonHandler lib tr text ml ∧
      Event.successShown "Translation completed! ✨" ∈ translateButtonHandler lib tr text ml) ∧
    (((translate lib tr text ml).1 = none ∨ (translate lib tr text ml).1 = some "") →
      (translateButtonHandler lib tr text ml).any isOutputMarkdown = false ∧
      (translateButtonHandler lib tr text ml).any isSuccess = false) := by
  have hb : translateButtonHandler lib tr text ml =
      Event.spinnerShown "Translating..." :: (translate lib tr text ml).2.1 ++
        (match (translate lib tr text ml).1 with
          | some t =>
            if t ≠ "" then
              [Event.outputMarkdown ("<div class=\"translation-box\">" ++ t ++ "</div>"),
                Event.successShown "Translation completed! ✨"]
            else []
          | none => []) := by
    unfold translateButtonHandler
    rw [if_pos hne]
  have htok : Event.tokenizeCall text true true ml ∈ (translate lib tr text ml).2.1 := by
    have hh := translate_events_head lib tr text ml
    rcases he : (translate lib tr text ml).2.1 with _ | ⟨ev, rest⟩
    · rw [he] at hh; cases hh
    · rw [he] at hh
      injection hh with hh'
      rw [← hh']
      exact List.mem_cons_self _ _
  refine ⟨?_, ?_, ?_⟩
  · rw [hb, List.any_eq_true]
    exact ⟨Event.tokenizeCall text true true ml,
      List.mem_cons_of_mem _ (List.mem_append_left _ htok), rfl⟩
  · intro t hres hts
    rw [hb, hres]
    dsimp only
    rw [if_pos hts]
    constructor
    · exact List.mem_cons_of_mem _ (List.mem_append_right _ (by simp))
    · exact List.mem_cons_of_mem _ (List.mem_append_right _ (by simp))
  · intro hres
    have hext : (match (translate lib tr text ml).1 with
        | some t =>
          if t ≠ "" then
            [Event.outputMarkdown ("<div class=\"translation-box\">" ++ t ++ "</div>"),
              Event.successShown "Translation completed! ✨"]
          else []
        | none => ([] : List Event)) = [] := by
      rcases hres with hres | hres <;> rw [hres] <;> simp
    rw [hb, hext, List.append_nil]
    have hui := translate_trace_no_ui lib tr text ml
    constructor
    · rw [List.any_cons, hui.1]; rfl
    · rw [List.any_cons, hui.2.1]; rfl

/-- Closed instance of `c6_render_on_success`. -/
theorem c6_render_on_success_witness :
    ("hello" : String) ≠ "" ∧
      (translateButtonHandler libEx trEx "hello" 128).any isTokenizeCall = true :=
  ⟨by decide, (c6_render_on_success libEx trEx "hello" 128 (by decide)).1⟩

/-- Library contract of the wrapped `generate`: with `max_length` set, no
returned sequence is longer than `max_length`. -/
def GenerateRespectsMaxLength (lib : Lib) : Prop :=
  ∀ m ids mask p out, lib.generate m ids mask p = .ok out →
    ∀ seq ∈ out, seq.length ≤ p.max_length

/-- Library contract of the wrapped `batch_decode` with
`skip_special_tokens=True`: one string per sequence, and each decoded
string's token count is at most the length of the sequence it decodes
(stripping special tokens never adds tokens). -/
def DecodeTokenCountBound (lib : Lib) (tokenCount : String → Nat) : Prop :=
  ∀ tok seqs out, lib.batch_decode tok seqs true = .ok out →
    out.length = seqs.length ∧
    ∀ i : Nat, ∀ hi : i < out.length, ∀ hj : i < seqs.length,
      tokenCount (out.get ⟨i, hi⟩) ≤ (seqs.get ⟨i, hj⟩).length

/-- C7: for `max_length` in [50, 250], under the library contracts, a
string returned by `translate` has token count at most `max_length`; and
`max_length` is passed both as the tokenizer's truncation bound and inside
the generation parameters (`genParamsOf` has `max_length := ml`). -/
theorem c7_output_within_max_length (lib : Lib) (tr : Translator) (text : String)
    (ml : Nat) (tokenCount : String → Nat) (s : String)
    (h50 : 50 ≤ ml) (h250 : ml ≤ 250)
    (hgen : GenerateRespectsMaxLength lib)
    (hdec : DecodeTokenCountBound lib tokenCount)
    (hs : (translate lib tr text ml).1 = some s) :
    tokenCount s ≤ ml ∧
    Event.tokenizeCall text true true ml ∈ (translate lib tr text ml).2.1 ∧
    (∃ ids mask, Event.generateCall ids mask (genParamsOf lib tr.tokenizer ml)
        ∈ (translate lib tr text ml).2.1) := by
  rcases translate_cases lib tr text ml with
    ⟨e, h1, ht⟩ | ⟨enc, e, h1, h2, ht⟩ | ⟨enc, toks, e, h1, h2, h3, ht⟩ |
    ⟨enc, toks, h1, h2, h3, ht⟩ | ⟨enc, toks, t, rest, h1, h2, h3, ht⟩
  · rw [ht] at hs; cases hs
  · rw [ht] at hs; cases hs
  · rw [ht] at hs; cases hs
  · rw [ht] at hs; cases hs
  · rw [ht] at hs
    obtain rfl : t = s := by simpa using hs
    obtain ⟨hlen, hbound⟩ := hdec tr.tokenizer toks (t :: rest) h3
    have htoks_pos : 0 < toks.length := by
      rw [← hlen]; exact Nat.succ_pos _
    have h0 : (0 : Nat) < (t :: rest).length := Nat.succ_pos _
    have hb := hbound 0 h0 htoks_pos
    have hmem : toks.get ⟨0, htoks_pos⟩ ∈ toks := List.get_mem toks 0 htoks_pos
    have hseq := hgen tr.model enc.input_ids enc.attention_mask
      (genParamsOf lib tr.tokenizer ml) toks h2 _ hmem
    refine ⟨?_, ?_, ⟨enc.input_ids, enc.attention_mask, ?_⟩⟩
    · exact le_trans hb hseq
    · rw [ht]; simp
    · rw [ht]; simp

/-- A concrete library meeting both C7 contracts: generation yields one
empty sequence, decoding maps every sequence to the empty string. -/
def libBound : Lib :=
  { libEx with
    generate := fun _ _ _ _ => .ok [[]],
    batch_decode := fun _ seqs _ => .ok (seqs.map fun _ => "") }

/-- `libBound` satisfies the generation-length contract. -/
theorem libBound_gen : GenerateRespectsMaxLength libBound := by
  intro m ids mask p out hout seq hseq
  have hout' : Except.ok ([([] : List Token)]) = Except.ok out := hout
  injection hout' with h
  subst h
  rcases List.mem_singleton.mp hseq with rfl
  exact Nat.zero_le _

/-- `libBound` satisfies the decode-token-count contract for the token
count that is constantly zero. -/
theorem libBound_dec : DecodeTokenCountBound libBound (fun _ => 0) := by
  intro tok seqs out hout
  have hout' : Except.ok (seqs.map fun _ => "") = Except.ok out := hout
  injection hout' with h
  subst h
  exact ⟨List.length_map _ _, fun i hi hj => Nat.zero_le _⟩

/-- Closed instance of `c7_output_within_max_length`. -/
theorem c7_output_within_max_length_witness :
    50 ≤ 128 ∧ 128 ≤ 250 ∧ GenerateRespectsMaxLength libBound ∧
      DecodeTokenCountBound libBound (fun _ => 0) ∧
      (translate libBound trEx "hello" 128).1 = some "" ∧
      (fun _ : String => 0) "" ≤ 128 :=
  ⟨by decide, by decide, libBound_gen, libBound_dec, by decide,
    (c7_output_within_max_length libBound trEx "hello" 128 (fun _ => 0) ""
      (by decide) (by decide) libBound_gen libBound_dec (by decide)).1⟩

/-- C8: once the translator is successfully instantiated it is memoized by
`st.cache_resource`: over any sequence of requests in one process, the
load step executes at most once. -/
theorem c8_load_once (lib : Lib) (tr : Translator)
    (h : (translatorInit lib).1 = .ok tr) (reqs : List Request) :
    countLoads (runRequests lib { cache := none } reqs).2 ≤ 1 := by
  cases reqs with
  | nil => exact Nat.zero_le _
  | cons req rest =>
    rcases translatorInit_cases lib with ⟨e, hinit⟩ | ⟨tok, m, h1, h2, hinit⟩
    · rw [hinit] at h; cases h
    · have hs := scriptRun_uncached_ok lib _ _ req hinit
      unfold runRequests
      rw [hs]
      dsimp only
      rw [countLoads_append, countLoads_append, runRequests_cached]
      have hmain := handler_no_loads lib
        { model_name := "facebook/mbart-large-50-many-to-many-mmt", device := "cpu",
          tokenizer := { tok with src_lang := "en_XX", tgt_lang := "ur_PK" }, model := m }
        req.input_text (sliderValue maxLengthSlider req.slider)
      unfold mainActivation
      rw [hmain]
      decide

/-- Closed instance of `c8_load_once` over two requests. -/
theorem c8_load_once_witness :
    (translatorInit libEx).1 = Except.ok trEx ∧
      countLoads (runRequests libEx { cache := none }
        [{ input_text := "hello", slider := none },
          { input_text := "world", slider := some 300 }]).2 ≤ 1 :=
  ⟨rfl, c8_load_once libEx trEx rfl
    [{ input_text := "hello", slider := none },
      { input_text := "world", slider := some 300 }]⟩

/-- C9: the `max_length` slider has minimum 50, maximum 250 and default
128; its value always lies in [50, 250]; and every tokenize or generate
call a button activation issues carries a `max_length` from that range. -/
theorem c9_slider_bounds (user : Option Nat) (lib : Lib) (tr : Translator) (text : String) :
    maxLengthSlider.min_value = 50 ∧ maxLengthSlider.max_value = 250 ∧
    maxLengthSlider.value = 128 ∧ sliderValue maxLengthSlider none = 128 ∧
    50 ≤ sliderValue maxLengthSlider user ∧ sliderValue maxLengthSlider user ≤ 250 ∧
    (mainActivation lib tr text user).all (eventMaxLenOk 50 250) = true := by
  have hlo : 50 ≤ sliderValue maxLengthSlider user := by
    cases user with
    | none => decide
    | some v => exact le_max_left _ _
  have hhi : sliderValue maxLengthSlider user ≤ 250 := by
    cases user with
    | none => decide
    | some v => exact max_le (by decide) (min_le_left _ _)
  exact ⟨rfl, rfl, rfl, rfl, hlo, hhi, handler_maxlen lib tr text _ 50 250 hlo hhi⟩

end EnglishToRomanUrdu
